import Mathlib

/-!
A shallow embedding of the go-apigen route compiler
(pkg/generator/router.go and the OpenAPI file loader), together with
theorems checking the repository's specification against it.

Modelling conventions:
* Go strings are Lean `String`s; `strings.ToUpper` is modelled on the
  ASCII range (faithful for HTTP method names and ASCII paths).
* Go maps (`doc.Paths.Map()`, `pathItem.Operations()`, `OperationMap`)
  are association lists; Go guarantees unique keys, which appears as
  `Nodup` hypotheses where uniqueness matters.
* `http.ResponseWriter` is a state value `RW` (status, body, headers),
  extended with an `events` list used only to observe middleware order.
* gorilla/mux is an external collaborator; its documented behaviour
  (route registration, first-match dispatch, `\x7bname\x7d` template
  segments binding path variables, root/subrouter middleware wrapping,
  `mux.Vars`) is modelled by `Router`, `matchPath` and `Request.vars`.
-/

namespace ApiGen

/-- A parsed OpenAPI operation; only the field the compiler reads. -/
structure Operation where
  operationID : String
deriving DecidableEq, Repr

/-- A path item: the operations keyed by HTTP method, in document order
(models `pathItem.Operations()`, whose keys kin-openapi emits uppercase,
though the compiler does not rely on that). -/
structure PathItem where
  operations : List (String × Operation)
deriving DecidableEq, Repr

/-- A validated OpenAPI document: URL-template-keyed path items, listed
in one iteration order of `doc.Paths.Map()`. That is a Go map, so its
keys are unique but the order presented to the compiler's loop is
arbitrary and varies between calls; a permutation of `paths` models the
same document seen under another iteration order. -/
structure OpenAPIDoc where
  paths : List (String × PathItem)
deriving DecidableEq, Repr

/-- An inbound HTTP request. `vars` models the path-variable map that
gorilla/mux stores in the request context when the request was matched
against a route template; `none` models an unmatched request (nil map). -/
structure Request where
  method : String
  path : String
  body : String := ""
  vars : Option (List (String × String)) := none

/-- The state of an `http.ResponseWriter`: status written (none until
`WriteHeader` or the first `Write`), accumulated body, headers, plus an
observation log used only to state middleware-ordering properties. -/
structure RW where
  status : Option Nat := none
  body : String := ""
  headers : List (String × String) := []
  events : List String := []

/-- Models `w.WriteHeader(code)`: the first call sets the status,
later calls are ignored (net/http drops superfluous WriteHeader calls). -/
def RW.writeHeader (w : RW) (code : Nat) : RW :=
  if w.status.isSome then w else { w with status := some code }

/-- Models writing bytes to the ResponseWriter: an implicit 200 status
is sent if none was written yet, and the bytes are appended to the body. -/
def RW.write (w : RW) (s : String) : RW :=
  let w' := if w.status.isSome then w else { w with status := some 200 }
  { w' with body := w'.body ++ s }

/-- The response as seen on the wire: an unset status reads as 200. -/
structure Response where
  status : Nat
  body : String
deriving DecidableEq, Repr

def RW.response (w : RW) : Response :=
  { status := w.status.getD 200, body := w.body }

/-- Models `http.HandlerFunc` (argument order `(request, writer)`). -/
def HandlerFunc : Type := Request → RW → RW

/-- Models `mux.MiddlewareFunc`: wraps a handler into another handler. -/
def MiddlewareFunc : Type := HandlerFunc → HandlerFunc

/-- Models `strings.ToUpper` on the ASCII range. -/
def stringsToUpper (s : String) : String :=
  String.mk (s.data.map Char.toUpper)

/-- RouteDefinition holds both a Handler and optional Middlewares for
each operationId (source: router.go). -/
structure RouteDefinition where
  Handler : HandlerFunc
  Middlewares : List MiddlewareFunc := []

/-- OperationMap is a map of operationId to RouteDefinition. -/
def OperationMap : Type := List (String × RouteDefinition)

/-- One registered mux route: the method and path template it matches,
the middlewares attached to its subrouter, and its handler. -/
structure Route where
  method : String
  path : String
  middlewares : List MiddlewareFunc
  handler : HandlerFunc

/-- The compiled router: middlewares installed at the root with
`r.Use(globalMiddlewares...)`, and the registered routes in order. -/
structure Router where
  middlewares : List MiddlewareFunc
  routes : List Route

/-- Wrapping a handler in a middleware list, first-listed outermost:
mux applies `Use`d middlewares in reverse registration order, so the
first registered middleware observes the request first. -/
def chainMw (ms : List MiddlewareFunc) (h : HandlerFunc) : HandlerFunc :=
  ms.foldr (fun m acc => m acc) h

/-- Models Go's byte escaping inside `%q` (strconv.Quote) for one
character: quote and backslash are backslash-escaped, the named control
escapes are used where Go uses them, remaining ASCII control bytes and
DEL become a two-digit hex escape, and other characters stand for
themselves (faithful for printable runes). -/
def goEscapeChar (c : Char) : String :=
  if c = '"' then "\\\""
  else if c = '\\' then "\\\\"
  else if c = '\x07' then "\\a"
  else if c = '\x08' then "\\b"
  else if c = '\x0c' then "\\f"
  else if c = '\n' then "\\n"
  else if c = '\r' then "\\r"
  else if c = '\t' then "\\t"
  else if c = '\x0b' then "\\v"
  else if c.toNat < 32 ∨ c.toNat = 127 then
    let hexDigit : Nat → Char := fun n =>
      if n < 10 then Char.ofNat (48 + n) else Char.ofNat (87 + n)
    String.mk ['\\', 'x', hexDigit (c.toNat / 16), hexDigit (c.toNat % 16)]
  else String.mk [c]

/-- Models Go's `%q` verb on a string: a double-quoted Go string
literal with the characters escaped as in strconv.Quote. -/
def goQuote (s : String) : String :=
  "\"" ++ String.mk (s.data.flatMap fun c => (goEscapeChar c).data) ++ "\""

/-- notImplementedHandler is used if the user did not provide a handler
for an operationId: it writes status 501 and prints
`Operation %q is not implemented\n` with the operationId (source:
router.go lines 71-76). -/
def notImplementedHandler (opID : String) : HandlerFunc :=
  fun _ w =>
    (w.writeHeader 501).write ("Operation " ++ goQuote opID ++ " is not implemented\n")

/-- The RouteDefinition the compiler attaches for an operationId:
`routeDef, found := ops[opID]`, falling back to the not-implemented
handler with no middlewares when the id is absent (source: router.go
lines 44-48; a Go struct's zero-value slice is empty). -/
def resolvedDef (ops : OperationMap) (opID : String) : RouteDefinition :=
  match List.lookup opID ops with
  | some rd => rd
  | none => { Handler := notImplementedHandler opID, Middlewares := [] }

/-- The route(s) the compiler registers for one (path, method,
operation) entry of the document: none when the operationId is empty,
otherwise exactly one route carrying the resolved RouteDefinition's
handler and middlewares (source: router.go lines 36-64, loop body). -/
def routesForOp (ops : OperationMap) (path method : String) (operation : Operation) :
    List Route :=
  if operation.operationID = "" then []
  else
    [{ method := stringsToUpper method, path := path,
       middlewares := (resolvedDef ops operation.operationID).Middlewares,
       handler := (resolvedDef ops operation.operationID).Handler }]

/-- All routes registered by the compiler, in the order the document
presentation lists its entries (one Go map iteration order; route order
matters to dispatch, since mux serves the first matching route). -/
def muxRoutes (doc : OpenAPIDoc) (ops : OperationMap) : List Route :=
  doc.paths.flatMap fun pe =>
    pe.2.operations.flatMap fun me => routesForOp ops pe.1 me.1 me.2

/-- The router value built by GenerateMuxRouter: global middlewares at
the root, and the per-entry routes. -/
def muxRouterOf (doc : OpenAPIDoc) (ops : OperationMap)
    (globalMiddlewares : List MiddlewareFunc) : Router :=
  { middlewares := globalMiddlewares, routes := muxRoutes doc ops }

/-- GenerateMuxRouter takes a parsed OpenAPI doc and an OperationMap and
returns a fully wired router; the source returns `r, nil` on every
input (source: router.go lines 25-68). -/
def GenerateMuxRouter (doc : OpenAPIDoc) (ops : OperationMap)
    (globalMiddlewares : List MiddlewareFunc) : Except String Router :=
  Except.ok (muxRouterOf doc ops globalMiddlewares)

/-- Models mux.Vars: the path-variable map bound during matching, or the
nil map when the request was never matched. Indexing a Go map returns
the zero value (empty string) for a missing key. -/
def muxVars (r : Request) : List (String × String) :=
  r.vars.getD []

/-- Example helper for path params (source: router.go lines 79-81). -/
def GetPathParam (r : Request) (key : String) : String :=
  ((muxVars r).lookup key).getD ""

/-! Dispatch semantics of the compiled router, modelling gorilla/mux:
first registered route whose method and path template match wins; the
matched route's handler runs wrapped by its subrouter middlewares
(inner) and the root middlewares (outer); an unmatched request gets
net/http's NotFound response. Template segments `\x7bname\x7d` match
one non-empty path segment and bind it to `name`. -/

/-- Splits a list of characters on a separator character (the segment
view gorilla/mux takes of a path; total and kernel-reducible). -/
def splitChar (sep : Char) : List Char → List (List Char)
  | [] => [[]]
  | c :: cs =>
    let rest := splitChar sep cs
    if c = sep then [] :: rest
    else match rest with
      | [] => [[c]]
      | seg :: segs => (c :: seg) :: segs

/-- The slash-separated segments of a path or template. -/
def splitSlash (s : String) : List String :=
  (splitChar '/' s.data).map String.mk

/-- Whether a template segment is a named placeholder `\x7bname\x7d`. -/
def isVarSeg (seg : String) : Bool :=
  seg.data.head? = some '\x7b' ∧ seg.data.getLast? = some '\x7d' ∧ 3 ≤ seg.data.length

/-- The placeholder name inside a `\x7bname\x7d` template segment. -/
def varSegName (seg : String) : String :=
  String.mk (seg.data.drop 1).dropLast

/-- Matches template segments against request path segments, collecting
placeholder bindings; a placeholder matches one non-empty segment. -/
def matchSegs : List String → List String → Option (List (String × String))
  | [], [] => some []
  | t :: ts, s :: ss =>
    if isVarSeg t then
      if s = "" then none
      else (matchSegs ts ss).map fun vs => (varSegName t, s) :: vs
    else if t = s then matchSegs ts ss
    else none
  | _, _ => none

/-- Matches a full path template against a request path. -/
def matchPath (tmpl path : String) : Option (List (String × String)) :=
  matchSegs (splitSlash tmpl) (splitSlash path)

/-- Whether a route matches a request, and with which bindings: the
method must be equal (mux stores methods uppercased and compares them
to the request method verbatim) and the path template must match. -/
def Route.matches (rt : Route) (req : Request) : Option (List (String × String)) :=
  if rt.method = req.method then matchPath rt.path req.path else none

/-- First matching route in registration order, with its bindings. -/
def findMatch : List Route → Request → Option (Route × List (String × String))
  | [], _ => none
  | rt :: rts, req =>
    match rt.matches req with
    | some vars => some (rt, vars)
    | none => findMatch rts req

/-- The handler a matched route effectively runs: the route's handler
wrapped by its subrouter middlewares (innermost) then by the router's
root middlewares (outermost). -/
def Router.routeHandler (r : Router) (rt : Route) : HandlerFunc :=
  chainMw r.middlewares (chainMw rt.middlewares rt.handler)

/-- One dispatch of the router on a writer state: run the first matching
route's effective handler with the bindings installed in the request,
or answer net/http's standard 404 page when nothing matches. -/
def Router.serveW (r : Router) (req : Request) (w : RW) : RW :=
  match findMatch r.routes req with
  | some (rt, vars) => r.routeHandler rt { req with vars := some vars } w
  | none => (w.writeHeader 404).write "404 page not found\n"

/-- The response of the router to a request, from a fresh writer. -/
def Router.serve (r : Router) (req : Request) : Response :=
  (r.serveW req {}).response

/-! The specification loader (source: the ParseOpenAPIFile file). Its
three collaborators - os.ReadFile, openapi3 LoadFromData, and document
Validate - are external; they enter the embedding as an environment of
oracles, each answering with data or with its error text. -/

/-- The external collaborators ParseOpenAPIFile calls, as oracles:
reading the file, parsing the bytes, validating the document. An
`Except.error` / `some` answer carries the collaborator's error text. -/
structure LoaderEnv where
  ReadFile : String → Except String String
  LoadFromData : String → Except String OpenAPIDoc
  Validate : OpenAPIDoc → Option String

/-- A Go error built by `fmt.Errorf("...: %w", err)`: the rendered
message, and the wrapped cause recoverable through errors.Unwrap. -/
structure GoWrapError where
  msg : String
  cause : String
deriving DecidableEq, Repr

/-- ParseOpenAPIFile reads an OpenAPI file, parses it and validates it,
wrapping each stage's failure with that stage's message prefix
(source: the loader file, lines 12-31). -/
def ParseOpenAPIFile (env : LoaderEnv) (filename : String) :
    Except GoWrapError OpenAPIDoc :=
  match env.ReadFile filename with
  | Except.error err =>
    Except.error { msg := "cannot read file " ++ filename ++ ": " ++ err, cause := err }
  | Except.ok data =>
    match env.LoadFromData data with
    | Except.error err =>
      Except.error { msg := "failed to parse OpenAPI data: " ++ err, cause := err }
    | Except.ok doc =>
      match env.Validate doc with
      | some err =>
        Except.error { msg := "OpenAPI validation error: " ++ err, cause := err }
      | none => Except.ok doc

/-- The three failure stages of the loader. -/
inductive LoadStage where
  | readStage
  | parseStage
  | validationStage
deriving DecidableEq, Repr

/-- Whether the first string is a leading substring of the second. -/
def strHasPre (p s : String) : Bool :=
  p.data.isPrefixOf s.data

/-- A caller-side classifier for loader errors: which stage failed, read
off the stage-specific message prefix the code attaches. -/
def loadStageOf (e : GoWrapError) : Option LoadStage :=
  if strHasPre "cannot read file " e.msg then some LoadStage.readStage
  else if strHasPre "failed to parse OpenAPI data: " e.msg then some LoadStage.parseStage
  else if strHasPre "OpenAPI validation error: " e.msg then some LoadStage.validationStage
  else none

/-! Instrumentation and concrete fixtures used to state and witness the
behavioural claims. -/

/-- A middleware that records when it sees the request and when it sees
the response, around the inner handler. -/
def traceMw (name : String) : MiddlewareFunc :=
  fun next req w =>
    let w1 : RW := { w with events := w.events ++ ["req:" ++ name] }
    let w2 := next req w1
    { w2 with events := w2.events ++ ["resp:" ++ name] }

/-- A handler that records its invocation. -/
def traceHandler (name : String) : HandlerFunc :=
  fun _ w => { w with events := w.events ++ [name] }

/-- A sample user handler answering 200 with a fixed body. -/
def sampleHandler (tag : String) : HandlerFunc :=
  fun _ w => (w.writeHeader 200).write tag

/-- The identity middleware. -/
def idMw : MiddlewareFunc := fun next => next

/-- The spec's scenario document: GET /users and GET /users/\x7buserId\x7d. -/
def usersDoc : OpenAPIDoc :=
  { paths := [("/users", { operations := [("get", { operationID := "listUsers" })] }),
              ("/users/\x7buserId\x7d",
               { operations := [("get", { operationID := "getUserById" })] })] }

/-- The spec's scenario operation map: only listUsers is implemented. -/
def usersOps : OperationMap :=
  [("listUsers", { Handler := sampleHandler "H1", Middlewares := [idMw] })]

/-- A document whose single operationId contains a double quote, which
Go's %q verb escapes in the fallback body. -/
def quoteDoc : OpenAPIDoc :=
  { paths := [("/x", { operations := [("get", { operationID := "a\"b" })] })] }

/-- A document exercising the empty-operationId skip: /a has one
skipped and one registered operation, /b only skipped ones. -/
def skipDoc : OpenAPIDoc :=
  { paths := [("/a", { operations := [("get", { operationID := "" }),
                                      ("post", { operationID := "doA" })] }),
              ("/b", { operations := [("get", { operationID := "" })] })] }

/-- A single-route document for observing the middleware chain. -/
def traceDoc : OpenAPIDoc :=
  { paths := [("/t", { operations := [("get", { operationID := "opT" })] })] }

/-- The operation map binding traceDoc's operation to a tracing handler
behind two tracing per-operation middlewares. -/
def traceOps (c d e : String) : OperationMap :=
  [("opT", { Handler := traceHandler e, Middlewares := [traceMw c, traceMw d] })]

/-- A document using a mixed-case method key, as in the spec scenario. -/
def mixedDoc : OpenAPIDoc :=
  { paths := [("/m", { operations := [("Get", { operationID := "mixedOp" })] })] }

/-- A document whose two templates overlap - GET /pets/mine is also
matched by GET /pets/\x7bpetId\x7d - listed in one iteration order of
the underlying Go path map. OpenAPI permits such documents and
kin-openapi's Validate accepts them. -/
def overlapDocA : OpenAPIDoc :=
  { paths := [("/pets/mine", { operations := [("get", { operationID := "getMyPets" })] }),
              ("/pets/\x7bpetId\x7d",
               { operations := [("get", { operationID := "getPetById" })] })] }

/-- The same document content as overlapDocA - the paths list is a
permutation - as another call of `doc.Paths.Map()` may present it, Go
map iteration order being randomized per call. -/
def overlapDocB : OpenAPIDoc :=
  { paths := [("/pets/\x7bpetId\x7d",
               { operations := [("get", { operationID := "getPetById" })] }),
              ("/pets/mine", { operations := [("get", { operationID := "getMyPets" })] })] }

/-- A loader environment whose file read fails. -/
def readFailEnv : LoaderEnv :=
  { ReadFile := fun _ => Except.error "permission denied",
    LoadFromData := fun _ => Except.error "unused",
    Validate := fun _ => none }

/-- A loader environment whose parse stage fails. -/
def parseFailEnv : LoaderEnv :=
  { ReadFile := fun _ => Except.ok "not yaml",
    LoadFromData := fun _ => Except.error "bad syntax",
    Validate := fun _ => none }

/-- A loader environment whose validation stage fails. -/
def validateFailEnv : LoaderEnv :=
  { ReadFile := fun _ => Except.ok "openapi: 3.0.0",
    LoadFromData := fun _ => Except.ok { paths := [] },
    Validate := fun _ => some "missing info" }

/-! General list lemmas used to analyse the registration traversal. -/

theorem filter_flatMap_comm {α β : Type} (q : β → Bool) (f : α → List β) (l : List α) :
    (l.flatMap f).filter q = l.flatMap fun a => (f a).filter q := by
  induction l with
  | nil => rfl
  | cons a l ih => simp [List.flatMap_cons, List.filter_append, ih]

theorem flatMap_eq_nil_of {α β : Type} {f : α → List β} {l : List α}
    (h : ∀ a ∈ l, f a = []) : l.flatMap f = [] := by
  induction l with
  | nil => rfl
  | cons a l ih =>
    simp [List.flatMap_cons, h a (List.mem_cons_self a l),
      ih fun b hb => h b (List.mem_cons_of_mem a hb)]

theorem flatMap_eq_singleton {α β : Type} {f : α → List β} {x : β} :
    ∀ {l : List α} {a : α}, a ∈ l → l.Nodup → f a = [x] →
      (∀ b ∈ l, b ≠ a → f b = []) → l.flatMap f = [x] := by
  intro l
  induction l with
  | nil => intro a h; cases h
  | cons c cs ih =>
    intro a hmem hnd hfa hothers
    rcases List.mem_cons.mp hmem with rfl | hmem'
    · have hrest : cs.flatMap f = [] := by
        apply flatMap_eq_nil_of
        intro b hb
        refine hothers b (List.mem_cons_of_mem _ hb) fun hba => ?_
        exact (List.nodup_cons.mp hnd).1 (hba ▸ hb)
      simp [List.flatMap_cons, hfa, hrest]
    · have hca : c ≠ a := fun hca => (List.nodup_cons.mp hnd).1 (hca ▸ hmem')
      have hfc : f c = [] := hothers c (List.mem_cons_self c cs) hca
      have htail := ih hmem' (List.nodup_cons.mp hnd).2 hfa
        fun b hb hba => hothers b (List.mem_cons_of_mem _ hb) hba
      simp [List.flatMap_cons, hfc, htail]

/-! Characterisation of the routes the compiler registers. -/

/-- A route is registered exactly for the document entries with a
non-empty operationId, carrying the resolved definition's handler and
middlewares under the uppercased method and the entry's path. -/
theorem mem_muxRoutes {doc : OpenAPIDoc} {ops : OperationMap} {rt : Route} :
    rt ∈ muxRoutes doc ops ↔
      ∃ p item method op,
        (p, item) ∈ doc.paths ∧ (method, op) ∈ item.operations ∧
        op.operationID ≠ "" ∧
        rt = { method := stringsToUpper method, path := p,
               middlewares := (resolvedDef ops op.operationID).Middlewares,
               handler := (resolvedDef ops op.operationID).Handler } := by
  constructor
  · intro hrt
    rcases List.mem_flatMap.mp hrt with ⟨⟨p, item⟩, hpe, hin⟩
    rcases List.mem_flatMap.mp hin with ⟨⟨m, op⟩, hme, hr⟩
    by_cases hid : op.operationID = ""
    · simp [routesForOp, hid] at hr
    · simp only [routesForOp, hid, if_false, List.mem_singleton] at hr
      exact ⟨p, item, m, op, hpe, hme, hid, hr⟩
  · rintro ⟨p, item, m, op, hpe, hme, hid, rfl⟩
    refine List.mem_flatMap.mpr ⟨(p, item), hpe, ?_⟩
    refine List.mem_flatMap.mpr ⟨(m, op), hme, ?_⟩
    simp [routesForOp, hid]

/-- Under the uniqueness Go maps guarantee (distinct path keys, distinct
uppercased method keys within a path item), the traversal registers
exactly one route at a given (uppercased method, path), the one carrying
the resolved definition of that entry's operationId. -/
theorem filter_muxRoutes_single (doc : OpenAPIDoc) (ops : OperationMap)
    {P m : String} {item : PathItem} {op : Operation}
    (hp : (P, item) ∈ doc.paths) (hm : (m, op) ∈ item.operations)
    (hid : op.operationID ≠ "")
    (hnd1 : (doc.paths.map Prod.fst).Nodup)
    (hnd2 : (item.operations.map fun me => stringsToUpper me.1).Nodup) :
    (muxRoutes doc ops).filter
        (fun rt => rt.method == stringsToUpper m && rt.path == P) =
      [{ method := stringsToUpper m, path := P,
         middlewares := (resolvedDef ops op.operationID).Middlewares,
         handler := (resolvedDef ops op.operationID).Handler }] := by
  unfold muxRoutes
  rw [filter_flatMap_comm]
  apply flatMap_eq_singleton hp (List.Nodup.of_map _ hnd1)
  · rw [filter_flatMap_comm]
    apply flatMap_eq_singleton hm (List.Nodup.of_map _ hnd2)
    · simp [routesForOp, hid]
    · rintro ⟨m', op'⟩ hme' hne
      by_cases hid' : op'.operationID = ""
      · simp [routesForOp, hid']
      · have hmm : stringsToUpper m' ≠ stringsToUpper m := by
          intro hEq
          exact hne (List.inj_on_of_nodup_map hnd2 hme' hm hEq)
        simp [routesForOp, hid', List.filter_cons, hmm]
  · rintro ⟨p', item'⟩ hpe' hne
    have hpp : p' ≠ P := by
      intro hEq
      exact hne (List.inj_on_of_nodup_map hnd1 hpe' hp hEq)
    rw [filter_flatMap_comm]
    apply flatMap_eq_nil_of
    rintro ⟨m', op'⟩ hme'
    by_cases hid' : op'.operationID = ""
    · simp [routesForOp, hid']
    · simp [routesForOp, hid', List.filter_cons, hpp]

/-! Small facts about the ResponseWriter model and string prefixes. -/

theorem string_empty_append (s : String) : "" ++ s = s := by
  cases s
  rfl

theorem RW.writeHeader_headers (w : RW) (c : Nat) :
    (w.writeHeader c).headers = w.headers := by
  unfold RW.writeHeader
  split <;> rfl

theorem RW.write_headers (w : RW) (s : String) :
    (w.write s).headers = w.headers := by
  unfold RW.write
  split <;> rfl

theorem fresh_write_response (c : Nat) (s : String) :
    ((RW.writeHeader {} c).write s).response = { status := c, body := s } := by
  simp [RW.writeHeader, RW.write, RW.response, string_empty_append]

theorem notImplemented_headers (opID : String) (req : Request) (w : RW) :
    (notImplementedHandler opID req w).headers = w.headers := by
  simp [notImplementedHandler, RW.writeHeader_headers, RW.write_headers]

theorem isPrefixOf_append_self (p t : List Char) : p.isPrefixOf (p ++ t) = true := by
  simp [List.isPrefixOf_iff_prefix, List.prefix_append]

theorem cons_not_prefixOf_cons_append {a b : Char} (as bs t : List Char) (h : ¬a = b) :
    (a :: as).isPrefixOf ((b :: bs) ++ t) = false := by
  have hb : (a == b) = false := by simp [h]
  simp [List.cons_append, List.isPrefixOf, hb]

theorem loadStage_read (fn e : String) :
    loadStageOf { msg := "cannot read file " ++ fn ++ ": " ++ e, cause := e } =
      some LoadStage.readStage := by
  have h1 : strHasPre "cannot read file " ("cannot read file " ++ fn ++ ": " ++ e) = true := by
    simp only [strHasPre, String.data_append, List.append_assoc]
    exact isPrefixOf_append_self _ _
  simp [loadStageOf, h1]

theorem loadStage_parse (e : String) :
    loadStageOf { msg := "failed to parse OpenAPI data: " ++ e, cause := e } =
      some LoadStage.parseStage := by
  have h0 : strHasPre "cannot read file " ("failed to parse OpenAPI data: " ++ e) = false := by
    simp only [strHasPre, String.data_append]
    exact cons_not_prefixOf_cons_append _ _ _ (by decide)
  have h1 : strHasPre "failed to parse OpenAPI data: "
      ("failed to parse OpenAPI data: " ++ e) = true := by
    simp only [strHasPre, String.data_append]
    exact isPrefixOf_append_self _ _
  simp [loadStageOf, h0, h1]

theorem loadStage_validation (e : String) :
    loadStageOf { msg := "OpenAPI validation error: " ++ e, cause := e } =
      some LoadStage.validationStage := by
  have h0 : strHasPre "cannot read file " ("OpenAPI validation error: " ++ e) = false := by
    simp only [strHasPre, String.data_append]
    exact cons_not_prefixOf_cons_append _ _ _ (by decide)
  have h1 : strHasPre "failed to parse OpenAPI data: "
      ("OpenAPI validation error: " ++ e) = false := by
    simp only [strHasPre, String.data_append]
    exact cons_not_prefixOf_cons_append _ _ _ (by decide)
  have h2 : strHasPre "OpenAPI validation error: "
      ("OpenAPI validation error: " ++ e) = true := by
    simp only [strHasPre, String.data_append]
    exact isPrefixOf_append_self _ _
  simp [loadStageOf, h0, h1, h2]

/-! The claims. -/

/-- C1: every (path, method, operationId) triple of the document whose
operationId is non-empty and bound in the operation map yields exactly
one registered route at (uppercased method, path) - the route filter is
the singleton carrying the map's handler and per-operation middlewares -
and the handler that route effectively runs is that handler wrapped by
the per-operation middlewares (innermost) and then the global
middlewares (outermost). -/
theorem mapped_route_unique (doc : OpenAPIDoc) (ops : OperationMap)
    (G : List MiddlewareFunc) {P m : String} {item : PathItem} {op : Operation}
    {rd : RouteDefinition}
    (hp : (P, item) ∈ doc.paths) (hm : (m, op) ∈ item.operations)
    (hid : op.operationID ≠ "") (hfound : List.lookup op.operationID ops = some rd)
    (hnd1 : (doc.paths.map Prod.fst).Nodup)
    (hnd2 : (item.operations.map fun me => stringsToUpper me.1).Nodup) :
    ((muxRouterOf doc ops G).routes.filter
        fun rt => rt.method == stringsToUpper m && rt.path == P) =
      [{ method := stringsToUpper m, path := P,
         middlewares := rd.Middlewares, handler := rd.Handler }] ∧
    (muxRouterOf doc ops G).routeHandler
        { method := stringsToUpper m, path := P,
          middlewares := rd.Middlewares, handler := rd.Handler } =
      chainMw G (chainMw rd.Middlewares rd.Handler) := by
  have hres : resolvedDef ops op.operationID = rd := by simp [resolvedDef, hfound]
  refine ⟨?_, rfl⟩
  have hsingle := filter_muxRoutes_single doc ops hp hm hid hnd1 hnd2
  rw [hres] at hsingle
  simpa [muxRouterOf] using hsingle

/-- Witness for C1 at the spec scenario: GET /users bound to H1 behind
one per-operation middleware. -/
theorem mapped_route_unique_witness :
    ("/users", { operations := [("get", { operationID := "listUsers" })] }) ∈
      usersDoc.paths ∧
    ("get", ({ operationID := "listUsers" } : Operation)) ∈
      ({ operations := [("get", { operationID := "listUsers" })] } : PathItem).operations ∧
    ("listUsers" : String) ≠ "" ∧
    List.lookup "listUsers" usersOps =
      some { Handler := sampleHandler "H1", Middlewares := [idMw] } ∧
    (usersDoc.paths.map Prod.fst).Nodup ∧
    ((usersDoc.paths.map Prod.fst) ≠ []) ∧
    ((muxRouterOf usersDoc usersOps []).routes.filter
        fun rt => rt.method == stringsToUpper "get" && rt.path == "/users") =
      [{ method := stringsToUpper "get", path := "/users",
         middlewares := [idMw], handler := sampleHandler "H1" }] := by
  refine ⟨by decide, by decide, by decide, rfl, by decide, by decide, ?_⟩
  exact (@mapped_route_unique usersDoc usersOps [] "/users" "get"
    { operations := [("get", { operationID := "listUsers" })] }
    { operationID := "listUsers" }
    { Handler := sampleHandler "H1", Middlewares := [idMw] }
    (by decide) (by decide) (by decide) rfl (by decide) (by decide)).1

/-- C2 counterexample: for the operationId `a"b` the code's fallback
body is Go's %q rendering, with the inner quote backslash-escaped, not
the claimed literal substitution of the id between plain quotes. -/
theorem unmapped_body_escaped_cx :
    (muxRouterOf quoteDoc ([] : OperationMap) []).serve
        { method := "GET", path := "/x" } =
      { status := 501, body := "Operation \"a\\\"b\" is not implemented\n" } ∧
    "Operation \"a\\\"b\" is not implemented\n" ≠
      "Operation \"a\"b\" is not implemented\n" := by
  exact ⟨rfl, by decide⟩

/-- C2 (amended): every triple with a non-empty operationId absent from
the map yields a registered route at (uppercased method, path) with no
per-operation middlewares whose handler answers every request with
status 501 and body `Operation <q> is not implemented` plus newline,
where <q> is Go's %q quotation of the id (plain quotes around the id
whenever it contains no characters Go escapes), touching no headers. -/
theorem unmapped_route_fallback (doc : OpenAPIDoc) (ops : OperationMap)
    (G : List MiddlewareFunc) {P m : String} {item : PathItem} {op : Operation}
    (hp : (P, item) ∈ doc.paths) (hm : (m, op) ∈ item.operations)
    (hid : op.operationID ≠ "") (habs : List.lookup op.operationID ops = none) :
    ∃ rt ∈ (muxRouterOf doc ops G).routes,
      rt.method = stringsToUpper m ∧ rt.path = P ∧ rt.middlewares = [] ∧
      rt.handler = notImplementedHandler op.operationID ∧
      (∀ req, (rt.handler req {}).response =
        { status := 501,
          body := "Operation " ++ goQuote op.operationID ++ " is not implemented\n" }) ∧
      (∀ req w, (rt.handler req w).headers = w.headers) := by
  have hres : resolvedDef ops op.operationID =
      { Handler := notImplementedHandler op.operationID, Middlewares := [] } := by
    simp [resolvedDef, habs]
  refine ⟨{ method := stringsToUpper m, path := P, middlewares := [],
            handler := notImplementedHandler op.operationID }, ?_, rfl, rfl, rfl, rfl,
          ?_, ?_⟩
  · exact mem_muxRoutes.mpr ⟨P, item, m, op, hp, hm, hid, by rw [hres]⟩
  · intro req
    exact fresh_write_response 501 _
  · intro req w
    exact notImplemented_headers op.operationID req w

/-- Witness for C2 at the spec scenario: getUserById is unmapped and its
route answers 501 with the quoted-id body. -/
theorem unmapped_route_fallback_witness :
    ("/users/\x7buserId\x7d",
      { operations := [("get", { operationID := "getUserById" })] }) ∈ usersDoc.paths ∧
    List.lookup "getUserById" usersOps = none ∧
    ∃ rt ∈ (muxRouterOf usersDoc usersOps []).routes,
      rt.method = "GET" ∧ rt.path = "/users/\x7buserId\x7d" ∧ rt.middlewares = [] ∧
      rt.handler = notImplementedHandler "getUserById" ∧
      (∀ req, (rt.handler req {}).response =
        { status := 501, body := "Operation \"getUserById\" is not implemented\n" }) ∧
      (∀ req w, (rt.handler req w).headers = w.headers) := by
  refine ⟨by decide, rfl, ?_⟩
  exact @unmapped_route_fallback usersDoc usersOps []
    "/users/\x7buserId\x7d" "get"
    { operations := [("get", { operationID := "getUserById" })] }
    { operationID := "getUserById" } (by decide) (by decide) (by decide) rfl

/-- C3: the effective handler of a route with global chain [g1, g2] and
per-operation chain [p1, p2] is g1 (g2 (p1 (p2 h))), so g1 is outermost;
concretely, tracing middlewares observe the request in the order g1, g2,
p1, p2, then the handler, and the response in the reverse order. -/
theorem middleware_order (g1 g2 p1 p2 : MiddlewareFunc) (h : HandlerFunc)
    (M P : String) (rs : List Route) :
    Router.routeHandler { middlewares := [g1, g2], routes := rs }
        { method := M, path := P, middlewares := [p1, p2], handler := h } =
      g1 (g2 (p1 (p2 h))) ∧
    ∀ a b c d e : String,
      ((muxRouterOf traceDoc (traceOps c d e) [traceMw a, traceMw b]).serveW
          { method := "GET", path := "/t" } {}).events =
        ["req:" ++ a, "req:" ++ b, "req:" ++ c, "req:" ++ d, e,
         "resp:" ++ d, "resp:" ++ c, "resp:" ++ b, "resp:" ++ a] := by
  exact ⟨rfl, fun a b c d e => rfl⟩

/-- C4 counterexample: compiling the same document twice is not
behaviourally idempotent. overlapDocA and overlapDocB are the same
validated document - their paths lists are permutations of one another,
i.e. the same Go map content presented under two of the per-call-random
iteration orders of `doc.Paths.Map()` - yet with the empty operation
map the two compiled routers answer the same request GET /pets/mine
with different bodies: mux dispatches to the first registered matching
route, and the overlapping template /pets/\x7bpetId\x7d also matches
/pets/mine. -/
theorem compile_order_dependent_cx :
    List.Perm overlapDocA.paths overlapDocB.paths ∧
    (muxRouterOf overlapDocA ([] : OperationMap) []).serve
        { method := "GET", path := "/pets/mine" } =
      { status := 501, body := "Operation \"getMyPets\" is not implemented\n" } ∧
    (muxRouterOf overlapDocB ([] : OperationMap) []).serve
        { method := "GET", path := "/pets/mine" } =
      { status := 501, body := "Operation \"getPetById\" is not implemented\n" } ∧
    ({ status := 501, body := "Operation \"getMyPets\" is not implemented\n" }
        : Response) ≠
      { status := 501, body := "Operation \"getPetById\" is not implemented\n" } :=
  ⟨List.Perm.swap _ _ _, rfl, rfl, by decide⟩

/-- C4 (amended): compiling the same document, operation map and
globals twice under the same document iteration order yields routers
with the same response to every request; under different iteration
orders (Go randomizes map iteration per call) the two routers may
answer a request matched by overlapping templates differently. -/
theorem compile_idempotent (doc : OpenAPIDoc) (ops : OperationMap)
    (G : List MiddlewareFunc) (r1 r2 : Router)
    (h1 : GenerateMuxRouter doc ops G = Except.ok r1)
    (h2 : GenerateMuxRouter doc ops G = Except.ok r2) :
    ∀ req, r1.serve req = r2.serve req := by
  have h12 : Except.ok (ε := String) r1 = Except.ok r2 := h1.symm.trans h2
  injection h12 with h12
  subst h12
  intro req
  rfl

/-- Witness for C4 on the scenario inputs. -/
theorem compile_idempotent_witness :
    GenerateMuxRouter usersDoc usersOps [] =
      Except.ok (muxRouterOf usersDoc usersOps []) ∧
    (muxRouterOf usersDoc usersOps []).serve { method := "GET", path := "/users" } =
      (muxRouterOf usersDoc usersOps []).serve { method := "GET", path := "/users" } :=
  ⟨rfl, compile_idempotent usersDoc usersOps [] _ _ rfl rfl _⟩

/-- C5: compilation succeeds on every document, operation map (the empty
one included) and global middleware list - the error result is never a
failure and the returned router is the compiled one. -/
theorem compile_always_succeeds (doc : OpenAPIDoc) (ops : OperationMap)
    (G : List MiddlewareFunc) :
    GenerateMuxRouter doc ops G = Except.ok (muxRouterOf doc ops G) ∧
    (GenerateMuxRouter doc ops G).isOk = true :=
  ⟨rfl, rfl⟩

/-- C6: an operation with an empty operationId registers no route for
its (uppercased method, path); a path item all of whose operations have
empty operationIds contributes no route for its path; and the omission
is not a compilation error. -/
theorem empty_opid_no_route (doc : OpenAPIDoc) (ops : OperationMap)
    (G : List MiddlewareFunc) {P : String} {item : PathItem}
    (hp : (P, item) ∈ doc.paths)
    (hnd1 : (doc.paths.map Prod.fst).Nodup) :
    (∀ m op, (m, op) ∈ item.operations → op.operationID = "" →
      (item.operations.map fun me => stringsToUpper me.1).Nodup →
      ∀ rt ∈ (muxRouterOf doc ops G).routes,
        ¬(rt.method = stringsToUpper m ∧ rt.path = P)) ∧
    ((∀ me ∈ item.operations, me.2.operationID = "") →
      ∀ rt ∈ (muxRouterOf doc ops G).routes, rt.path ≠ P) ∧
    GenerateMuxRouter doc ops G = Except.ok (muxRouterOf doc ops G) := by
  refine ⟨?_, ?_, rfl⟩
  · intro m op hm hid hnd2 rt hrt hand
    obtain ⟨hMeth, hPath⟩ := hand
    rcases mem_muxRoutes.mp hrt with ⟨p', item', m', op', hp', hm', hid', rfl⟩
    have hpi : (p', item') = (P, item) :=
      List.inj_on_of_nodup_map hnd1 hp' hp hPath
    injection hpi with hpi1 hpi2
    subst hpi1
    subst hpi2
    have hmo : (m', op') = (m, op) :=
      List.inj_on_of_nodup_map hnd2 hm' hm hMeth
    injection hmo with hmo1 hmo2
    subst hmo2
    exact hid' hid
  · intro hall rt hrt hPath
    rcases mem_muxRoutes.mp hrt with ⟨p', item', m', op', hp', hm', hid', rfl⟩
    have hpi : (p', item') = (P, item) :=
      List.inj_on_of_nodup_map hnd1 hp' hp hPath
    injection hpi with hpi1 hpi2
    subst hpi1
    subst hpi2
    exact hid' (hall (m', op') hm')

/-- Witness for C6: in skipDoc, the empty-id GET of /a registers
nothing, and /b (all ids empty) contributes no route. -/
theorem empty_opid_no_route_witness :
    ("/a", ({ operations := [("get", { operationID := "" }),
                             ("post", { operationID := "doA" })] } : PathItem)) ∈
      skipDoc.paths ∧
    (skipDoc.paths.map Prod.fst).Nodup ∧
    (∀ rt ∈ (muxRouterOf skipDoc usersOps []).routes,
      ¬(rt.method = stringsToUpper "get" ∧ rt.path = "/a")) ∧
    (∀ rt ∈ (muxRouterOf skipDoc usersOps []).routes, rt.path ≠ "/b") := by
  refine ⟨by decide, by decide, ?_, ?_⟩
  · exact (@empty_opid_no_route skipDoc usersOps [] "/a"
      { operations := [("get", { operationID := "" }),
                       ("post", { operationID := "doA" })] }
      (by decide) (by decide)).1
      "get" { operationID := "" } (by decide) rfl (by decide)
  · exact (@empty_opid_no_route skipDoc usersOps [] "/b"
      { operations := [("get", { operationID := "" })] }
      (by decide) (by decide)).2.1 (by decide)

/-- C7: every registered route's method is the uppercase normalisation
of some document method key of its path, and every document entry with a
non-empty operationId gets a route registered under the uppercased form
of its method key. -/
theorem methods_registered_uppercase (doc : OpenAPIDoc) (ops : OperationMap)
    (G : List MiddlewareFunc) :
    (∀ rt ∈ (muxRouterOf doc ops G).routes,
      ∃ p item m op, (p, item) ∈ doc.paths ∧ (m, op) ∈ item.operations ∧
        op.operationID ≠ "" ∧ rt.method = stringsToUpper m ∧ rt.path = p) ∧
    (∀ p item m op, (p, item) ∈ doc.paths → (m, op) ∈ item.operations →
      op.operationID ≠ "" →
      ∃ rt ∈ (muxRouterOf doc ops G).routes,
        rt.method = stringsToUpper m ∧ rt.path = p) := by
  constructor
  · intro rt hrt
    rcases mem_muxRoutes.mp hrt with ⟨p, item, m, op, hp, hm, hid, rfl⟩
    exact ⟨p, item, m, op, hp, hm, hid, rfl, rfl⟩
  · intro p item m op hp hm hid
    exact ⟨_, mem_muxRoutes.mpr ⟨p, item, m, op, hp, hm, hid, rfl⟩, rfl, rfl⟩

/-- Witness for C7: the mixed-case method key `Get` registers as GET. -/
theorem methods_registered_uppercase_witness :
    ("/m", ({ operations := [("Get", { operationID := "mixedOp" })] } : PathItem)) ∈
      mixedDoc.paths ∧
    ∃ rt ∈ (muxRouterOf mixedDoc ([] : OperationMap) []).routes,
      rt.method = "GET" ∧ rt.path = "/m" := by
  refine ⟨by decide, ?_⟩
  exact (methods_registered_uppercase mixedDoc ([] : OperationMap) []).2
    "/m" { operations := [("Get", { operationID := "mixedOp" })] }
    "Get" { operationID := "mixedOp" } (by decide) (by decide) (by decide)

/-- C8: the fallback handler is a pure function of the operationId: its
output writer does not depend on the request, on a fresh writer the
response is byte-identical every time - status 501 and the fixed quoted
body - and it sets no headers. -/
theorem notImplemented_pure (opID : String) :
    (∀ req1 req2 w, notImplementedHandler opID req1 w =
      notImplementedHandler opID req2 w) ∧
    (∀ req, (notImplementedHandler opID req {}).response =
      { status := 501,
        body := "Operation " ++ goQuote opID ++ " is not implemented\n" }) ∧
    (∀ req w, (notImplementedHandler opID req w).headers = w.headers) :=
  ⟨fun _ _ _ => rfl, fun _ => fresh_write_response 501 _,
   fun req w => notImplemented_headers opID req w⟩

/-- C9: the loader surfaces read, parse and validation failures as
errors a caller can tell apart (each stage's message carries its own
prefix, classified by loadStageOf) and each wraps the collaborator's
underlying cause, recoverable from the error. -/
theorem loader_errors_distinguishable (env : LoaderEnv) (filename : String) :
    (∀ e, env.ReadFile filename = Except.error e →
      ParseOpenAPIFile env filename =
        Except.error { msg := "cannot read file " ++ filename ++ ": " ++ e, cause := e } ∧
      loadStageOf { msg := "cannot read file " ++ filename ++ ": " ++ e, cause := e } =
        some LoadStage.readStage) ∧
    (∀ d e, env.ReadFile filename = Except.ok d →
      env.LoadFromData d = Except.error e →
      ParseOpenAPIFile env filename =
        Except.error { msg := "failed to parse OpenAPI data: " ++ e, cause := e } ∧
      loadStageOf { msg := "failed to parse OpenAPI data: " ++ e, cause := e } =
        some LoadStage.parseStage) ∧
    (∀ d doc e, env.ReadFile filename = Except.ok d →
      env.LoadFromData d = Except.ok doc → env.Validate doc = some e →
      ParseOpenAPIFile env filename =
        Except.error { msg := "OpenAPI validation error: " ++ e, cause := e } ∧
      loadStageOf { msg := "OpenAPI validation error: " ++ e, cause := e } =
        some LoadStage.validationStage) := by
  refine ⟨?_, ?_, ?_⟩
  · intro e he
    exact ⟨by simp [ParseOpenAPIFile, he], loadStage_read filename e⟩
  · intro d e hd he
    exact ⟨by simp [ParseOpenAPIFile, hd, he], loadStage_parse e⟩
  · intro d doc e hd hl hv
    exact ⟨by simp [ParseOpenAPIFile, hd, hl, hv], loadStage_validation e⟩

/-- Witness for C9: one failing environment per stage, each classified
to its own stage with its cause preserved. -/
theorem loader_errors_distinguishable_witness :
    (readFailEnv.ReadFile "openapi.yaml" = Except.error "permission denied" ∧
     ParseOpenAPIFile readFailEnv "openapi.yaml" =
       Except.error { msg := "cannot read file openapi.yaml: permission denied",
                      cause := "permission denied" } ∧
     loadStageOf { msg := "cannot read file openapi.yaml: permission denied",
                   cause := "permission denied" } = some LoadStage.readStage) ∧
    (ParseOpenAPIFile parseFailEnv "openapi.yaml" =
       Except.error { msg := "failed to parse OpenAPI data: bad syntax",
                      cause := "bad syntax" } ∧
     loadStageOf { msg := "failed to parse OpenAPI data: bad syntax",
                   cause := "bad syntax" } = some LoadStage.parseStage) ∧
    (ParseOpenAPIFile validateFailEnv "openapi.yaml" =
       Except.error { msg := "OpenAPI validation error: missing info",
                      cause := "missing info" } ∧
     loadStageOf { msg := "OpenAPI validation error: missing info",
                   cause := "missing info" } = some LoadStage.validationStage) := by
  refine ⟨⟨rfl, ?_⟩, ?_, ?_⟩
  · exact (loader_errors_distinguishable readFailEnv "openapi.yaml").1
      "permission denied" rfl
  · exact (loader_errors_distinguishable parseFailEnv "openapi.yaml").2.1
      "not yaml" "bad syntax" rfl rfl
  · exact (loader_errors_distinguishable validateFailEnv "openapi.yaml").2.2
      "openapi: 3.0.0" { paths := [] } "missing info" rfl rfl rfl

/-- C10: the path-parameter accessor returns the value bound to the
named placeholder when the request carries a match binding it, and the
empty string when the request is unmatched or the placeholder is absent;
being a total function it never fails. -/
theorem getPathParam_spec :
    (∀ (req : Request) (key : String), req.vars = none → GetPathParam req key = "") ∧
    (∀ (req : Request) (key : String) (vars : List (String × String)) (v : String),
      req.vars = some vars → vars.lookup key = some v → GetPathParam req key = v) ∧
    (∀ (req : Request) (key : String) (vars : List (String × String)),
      req.vars = some vars → vars.lookup key = none → GetPathParam req key = "") ∧
    (∀ (tmpl path : String) (vars : List (String × String)) (key v : String)
      (req : Request),
      matchPath tmpl path = some vars → vars.lookup key = some v →
      GetPathParam { req with vars := some vars } key = v) := by
  refine ⟨?_, ?_, ?_, ?_⟩
  · intro req key h
    simp [GetPathParam, muxVars, h]
  · intro req key vars v h1 h2
    simp [GetPathParam, muxVars, h1, h2]
  · intro req key vars h1 h2
    simp [GetPathParam, muxVars, h1, h2]
  · intro tmpl path vars key v req hmatch h2
    simp [GetPathParam, muxVars, h2]

/-- Witness for C10: the matched /users/u7 request yields u7 for userId,
and the unmatched request yields the empty string. -/
theorem getPathParam_spec_witness :
    matchPath "/users/\x7buserId\x7d" "/users/u7" = some [("userId", "u7")] ∧
    GetPathParam { method := "GET", path := "/users/u7",
                   vars := some [("userId", "u7")] } "userId" = "u7" ∧
    GetPathParam { method := "GET", path := "/users/u7", vars := none } "userId" = "" := by
  refine ⟨rfl, ?_, ?_⟩
  · exact getPathParam_spec.2.2.2 "/users/\x7buserId\x7d" "/users/u7"
      [("userId", "u7")] "userId" "u7" { method := "GET", path := "/users/u7" } rfl rfl
  · exact getPathParam_spec.1 { method := "GET", path := "/users/u7", vars := none }
      "userId" rfl

end ApiGen
